import Mathlib

set_option maxRecDepth 100000

/-!
Verification development for the browser-resident controller of the
news/article aggregation dashboard (the front-end script with the article
feed, debounced search, manual refresh, auto-refresh, and the add-source
modal with its two source registries).

The JavaScript source is shallowly embedded: every DOM-mutating handler
becomes a pure Lean function from its inputs (current UI state plus the
outcome of each network request it performs) to the resulting UI state,
together with a log of the HTTP requests it issued.  JavaScript strings are
modelled as Lean `String` (code points; all inputs used in concrete
theorems are BMP characters, where JS UTF-16 `length`/`slice` agree with
code-point counting).  Optional JS fields that the code tests only for
truthiness are modelled as `String` with `""` standing for absent, which
the code cannot distinguish from the empty string.  Locale-dependent
environment behaviour (`Date` parsing validity, `toLocaleDateString`,
`toLocaleTimeString`) is abstracted into an `Env` of functions that every
theorem quantifies over (or instantiates concretely).
-/

/-- The JavaScript whitespace set recognised by `String.prototype.trim` /
`trimEnd`: WhiteSpace and LineTerminator code points. -/
def isJsSpace (c : Char) : Bool :=
  c.toNat = 9 || c.toNat = 10 || c.toNat = 11 || c.toNat = 12 || c.toNat = 13 ||
  c.toNat = 32 || c.toNat = 160 || c.toNat = 0x1680 ||
  (0x2000 ≤ c.toNat && c.toNat ≤ 0x200A) ||
  c.toNat = 0x2028 || c.toNat = 0x2029 || c.toNat = 0x202F ||
  c.toNat = 0x205F || c.toNat = 0x3000 || c.toNat = 0xFEFF

/-- `trimEnd` on a character list: drop trailing JS whitespace. -/
def jsTrimEnd (l : List Char) : List Char :=
  (l.reverse.dropWhile isJsSpace).reverse

/-- Leading-whitespace half of `trim`. -/
def jsTrimStart (l : List Char) : List Char :=
  l.dropWhile isJsSpace

/-- JavaScript `String.prototype.trim`. -/
def jsTrim (s : String) : String :=
  String.mk (jsTrimEnd (jsTrimStart s.toList))

/-- `escHtml` from the source: assigning `textContent` and reading back
`innerHTML` escapes exactly the text-node metacharacters. -/
def escHtml (str : String) : String :=
  String.join (str.toList.map fun c =>
    if c = '&' then "&amp;"
    else if c = '<' then "&lt;"
    else if c = '>' then "&gt;"
    else String.mk [c])

/-- Upper-case hex digit, as produced by `encodeURIComponent`. -/
def hexDigit (n : Nat) : Char :=
  if n < 10 then Char.ofNat (48 + n) else Char.ofNat (55 + n)

/-- One percent-encoded byte, e.g. `%2F`. -/
def pctByte (b : Nat) : List Char :=
  ['%', hexDigit (b / 16), hexDigit (b % 16)]

/-- UTF-8 bytes of one code point. -/
def utf8Bytes (c : Char) : List Nat :=
  let n := c.toNat
  if n < 0x80 then [n]
  else if n < 0x800 then [0xC0 + n / 64, 0x80 + n % 64]
  else if n < 0x10000 then [0xE0 + n / 4096, 0x80 + (n / 64) % 64, 0x80 + n % 64]
  else [0xF0 + n / 262144, 0x80 + (n / 4096) % 64, 0x80 + (n / 64) % 64, 0x80 + n % 64]

/-- Characters `encodeURIComponent` leaves unescaped. -/
def isUriUnreserved (c : Char) : Bool :=
  c.isAlpha || c.isDigit || c = '-' || c = '_' || c = '.' || c = '!' ||
  c = '~' || c = '*' || c = Char.ofNat 39 || c = '(' || c = ')'

/-- JavaScript `encodeURIComponent` (percent-encoding of the UTF-8 bytes of
every reserved character). -/
def encodeURIComponent (s : String) : String :=
  String.join (s.toList.map fun c =>
    if isUriUnreserved c then String.mk [c]
    else String.join ((utf8Bytes c).map fun b => String.mk (pctByte b)))

/-- Environment behaviour the script delegates to the browser: `Date`
validity and the two locale formatters.  Abstract here; theorems either
quantify over it or use the concrete `env0` below. -/
structure Env where
  dateValid : String → Bool
  localeDate : String → String
  localeTime : String → String

/-- `formatDate` from the source: empty input or an invalid date renders as
`""`, otherwise the locale date string. -/
def formatDate (env : Env) (iso : String) : String :=
  if iso = "" then ""
  else if env.dateValid iso then env.localeDate iso
  else ""

/-- `badgeClass` from the source. -/
def badgeClass (category : String) : String :=
  if category = "GitHub" then "badge-github"
  else if category = "Research" then "badge-research"
  else if category = "Game Dev AI" || category = "Gaming" then "badge-game"
  else "badge-ai"

/-- `truncate` from the source: `!text` is the empty string for `String`
inputs; otherwise strings longer than `max` are sliced to `max` characters,
`trimEnd`-ed, and suffixed with the ellipsis character. -/
def truncate (text : String) (max : Nat) : String :=
  if text = "" then ""
  else if text.length > max then String.mk (jsTrimEnd (text.toList.take max)) ++ "…"
  else text

/-- The Article value received from the backend.  `published` and `summary`
are optional in the data model; the code only tests them for truthiness, so
`""` models absent. -/
structure Article where
  title : String
  url : String
  source : String
  category : String
  published : String
  summary : String
deriving DecidableEq

/-- `renderCard` from the source: the card element's outer HTML (the
`<article class="card">` wrapper around the template literal). -/
def renderCard (env : Env) (a : Article) : String :=
  let catLabel := if a.category = "" then "AI" else a.category
  "<article class=\"card\">" ++
  "\n      <div class=\"card-meta\">\n        <span class=\"badge " ++
  badgeClass a.category ++ "\">" ++ catLabel ++ "</span>\n        <span class=\"source-name\">" ++
  escHtml a.source ++ "</span>\n        <span class=\"card-date\">" ++
  formatDate env a.published ++ "</span>\n      </div>\n      <div class=\"card-title\">\n        <a href=\"" ++
  escHtml a.url ++ "\" target=\"_blank\" rel=\"noopener noreferrer\">\n          " ++
  escHtml a.title ++ "\n        </a>\n      </div>\n      " ++
  (if a.summary = "" then ""
   else "<p class=\"card-summary\">" ++ escHtml (truncate a.summary 300) ++ "</p>") ++
  "\n      <a class=\"card-link\" href=\"" ++ escHtml a.url ++
  "\" target=\"_blank\" rel=\"noopener noreferrer\">\n        Read article &rarr;\n      </a>\n    " ++
  "</article>"

/-- The successful-load rendering: one card appended per article. -/
def renderCards (env : Env) (articles : List Article) : String :=
  String.join (articles.map (renderCard env))

/-- The URL `loadArticles` fetches: the keyword is truthy (non-empty) or
the unfiltered endpoint is used. -/
def articlesRequestUrl (keyword : String) : String :=
  if keyword = "" then "/api/articles"
  else "/api/articles?q=" ++ encodeURIComponent keyword

/-- The part of the page state `loadArticles` writes: the feed container's
`innerHTML` and the article-count label. -/
structure FeedView where
  feedHtml : String
  countText : String
deriving DecidableEq

/-- How one `loadArticles` request can complete.  `fetch` rejects only on
transport failure; a non-2xx response makes the code itself throw
`HTTP <status>`; `res.json()` can reject on a malformed body; otherwise the
parsed article array is available. -/
inductive LoadOutcome where
  | transportFail (msg : String)
  | httpError (status : Nat)
  | jsonFail (msg : String)
  | success (articles : List Article)
deriving DecidableEq

/-- The empty-result placeholder, echoing a truthy keyword. -/
def emptyFeedHtml (keyword : String) : String :=
  "<div class=\"empty\">No articles found" ++
  (if keyword = "" then ""
   else " for \"<strong>" ++ escHtml keyword ++ "</strong>\"") ++
  ".</div>"

/-- `loadArticles` from the source, as a transition on `FeedView` given the
outcome of its request.  Every failure path runs the `catch`, which writes
only the feed container; the count label is written only on success. -/
def loadArticles (env : Env) (keyword : String) (o : LoadOutcome) (v : FeedView) : FeedView :=
  match o with
  | .transportFail msg =>
      { v with feedHtml := "<div class=\"error\">Failed to load articles: " ++ msg ++ "</div>" }
  | .httpError status =>
      { v with feedHtml := "<div class=\"error\">Failed to load articles: HTTP " ++
          toString status ++ "</div>" }
  | .jsonFail msg =>
      { v with feedHtml := "<div class=\"error\">Failed to load articles: " ++ msg ++ "</div>" }
  | .success articles =>
      { feedHtml :=
          if articles.length = 0 then emptyFeedHtml keyword
          else renderCards env articles,
        countText := toString articles.length ++ " article" ++
          (if articles.length ≠ 1 then "s" else "") }

/-- How one `updateStatus` request can complete.  The code never checks
`res.ok`, so a response only fails via `fetch` rejection or `res.json()`
rejection; otherwise `data.last_fetched` is read (with `""` for absent,
which the truthiness test cannot distinguish). -/
inductive StatusOutcome where
  | transportFail (msg : String)
  | jsonFail (msg : String)
  | fetched (last_fetched : String)
deriving DecidableEq

/-- `updateStatus` from the source: the resulting status-line text. -/
def updateStatus (env : Env) (o : StatusOutcome) : String :=
  match o with
  | .transportFail _ => "Status unavailable."
  | .jsonFail _ => "Status unavailable."
  | .fetched lf =>
      if lf = "" then "No articles fetched yet."
      else "Last updated: " ++ env.localeTime lf

/-- An event in the interleaving semantics of overlapping article loads:
`issue k` is a call of `loadArticles(k)` sending its request; `arrive i o`
is the delivery of the response to the `i`-th issued load (0-based), whose
continuation then runs to completion on the single-threaded loop. -/
inductive LoadEvent where
  | issue (keyword : String)
  | arrive (idx : Nat) (o : LoadOutcome)
deriving DecidableEq

/-- State of the page across overlapping loads: the keywords of the loads
issued so far, and the rendered view. -/
structure LoadsState where
  issued : List String
  view : FeedView
deriving DecidableEq

/-- One event step.  The source keeps no sequence number: every arriving
response's continuation writes the view unconditionally. -/
def loadStep (env : Env) (s : LoadsState) (e : LoadEvent) : LoadsState :=
  match e with
  | .issue k => { s with issued := s.issued ++ [k] }
  | .arrive i o =>
      match s.issued.get? i with
      | some k => { s with view := loadArticles env k o s.view }
      | none => s

/-- Run a trace of load events. -/
def runLoads (env : Env) (s : LoadsState) (es : List LoadEvent) : LoadsState :=
  es.foldl (loadStep env) s

/-- State touched by the manual-refresh click handler. -/
structure PageState where
  view : FeedView
  statusText : String
  refreshDisabled : Bool
  refreshLabel : String
deriving DecidableEq

/-- How the bare `fetch("/api/refresh", {method: "POST"})` can complete:
the code neither checks `res.ok` nor reads the body, so only transport
failure is observable. -/
inductive PostOutcome where
  | transportFail (msg : String)
  | response (ok : Bool) (status : Nat)
deriving DecidableEq

/-- The `refreshBtn` click handler from the source.  It disables the
button, shows the busy label and progress status, POSTs `/api/refresh`,
and — only if that `fetch` resolves (any HTTP status: `res.ok` is never
consulted) — reloads articles with the trimmed current search value and
refreshes the status line.  `loadArticles` and `updateStatus` catch their
own failures, so the handler's `catch` runs exactly on POST transport
failure.  The `finally` restores the button on every path.  Returns the
new state and the log of requests issued. -/
def refreshClick (env : Env) (searchValue : String) (post : PostOutcome)
    (load : LoadOutcome) (status : StatusOutcome) (s : PageState) :
    PageState × List String :=
  let s1 := { s with refreshDisabled := true, refreshLabel := "Refreshing…",
                     statusText := "Fetching latest articles…" }
  let keyword := jsTrim searchValue
  let (s2, log) :=
    match post with
    | .transportFail msg =>
        ({ s1 with statusText := "Refresh failed: " ++ msg }, ["POST /api/refresh"])
    | .response _ _ =>
        ({ s1 with view := loadArticles env keyword load s1.view,
                   statusText := updateStatus env status },
         ["POST /api/refresh", "GET " ++ articlesRequestUrl keyword, "GET /api/status"])
  ({ s2 with refreshDisabled := false, refreshLabel := "&#8635; Refresh" }, log)

/-- A registered feed source; `id` is the string form put into `data-id`. -/
structure FeedSource where
  id : String
  name : String
  url : String
  category : String
deriving DecidableEq

/-- A registered scraped site; `query` is optional (`""` = absent). -/
structure ScrapedSite where
  id : String
  name : String
  url : String
  query : String
  category : String
deriving DecidableEq

/-- How a registry list request (`GET /api/feeds` / `GET /api/sites`) can
complete: neither loader checks `res.ok`, so failures are `fetch` or
`res.json()` rejections; otherwise the parsed item array. -/
inductive ListOutcome (α : Type) where
  | transportFail (msg : String)
  | jsonFail (msg : String)
  | items (l : List α)
deriving DecidableEq

/-- One row of the custom-feeds list, per the template in the source. -/
def feedRow (f : FeedSource) : String :=
  "\n        <div class=\"custom-feed-item\">\n          <div class=\"custom-feed-info\">\n            <span class=\"custom-feed-name\">" ++
  escHtml f.name ++ "</span>\n            <span class=\"custom-feed-url\">" ++
  escHtml f.url ++ "</span>\n            <span class=\"badge " ++ badgeClass f.category ++
  "\" style=\"margin-top:4px;width:fit-content\">" ++ escHtml f.category ++
  "</span>\n          </div>\n          <button class=\"delete-feed-btn\" data-id=\"" ++
  f.id ++ "\" title=\"Remove feed\">✕</button>\n        </div>\n      "

/-- One row of the scraped-sites list, per the template in the source. -/
def siteRow (s : ScrapedSite) : String :=
  "\n        <div class=\"custom-feed-item\">\n          <div class=\"custom-feed-info\">\n            <span class=\"custom-feed-name\">" ++
  escHtml s.name ++ "</span>\n            <span class=\"custom-feed-url\">" ++
  escHtml s.url ++ "</span>\n            " ++
  (if s.query = "" then ""
   else "<span class=\"custom-feed-url\">Query: " ++ escHtml s.query ++ "</span>") ++
  "\n            <span class=\"badge " ++ badgeClass s.category ++
  "\" style=\"margin-top:4px;width:fit-content\">" ++ escHtml s.category ++
  "</span>\n          </div>\n          <button class=\"delete-feed-btn\" data-id=\"" ++
  s.id ++ "\" title=\"Remove site\">✕</button>\n        </div>\n      "

/-- The transient loading placeholder both registry loaders show while
their request is in flight. -/
def loadingHint : String := "<p class=\x27field-hint\x27>Loading…</p>"

/-- `loadCustomFeeds` from the source: the final `innerHTML` of the
custom-feeds list once its request completes with outcome `o`. -/
def loadCustomFeeds (o : ListOutcome FeedSource) : String :=
  match o with
  | .transportFail _ => "<p class=\x27field-hint err\x27>Failed to load feeds.</p>"
  | .jsonFail _ => "<p class=\x27field-hint err\x27>Failed to load feeds.</p>"
  | .items [] => "<p class=\x27field-hint\x27>No custom feeds yet.</p>"
  | .items fs => String.join (fs.map feedRow)

/-- `loadScrapedSites` from the source: the final `innerHTML` of the
scraped-sites list once its request completes with outcome `o`. -/
def loadScrapedSites (o : ListOutcome ScrapedSite) : String :=
  match o with
  | .transportFail _ => "<p class=\x27field-hint err\x27>Failed to load sites.</p>"
  | .jsonFail _ => "<p class=\x27field-hint err\x27>Failed to load sites.</p>"
  | .items [] => "<p class=\x27field-hint\x27>No scraped websites yet.</p>"
  | .items ss => String.join (ss.map siteRow)

/-- The modal's UI state: visibility, active tab, every form field and
status message, the two registry list containers, and the busy state of the
three modal buttons. -/
structure ModalState where
  modalHidden : Bool
  activeTab : String
  feedUrl : String
  feedName : String
  feedCategory : String
  feedUrlStatusText : String
  feedUrlStatusClass : String
  submitStatusText : String
  submitStatusClass : String
  siteUrl : String
  siteName : String
  siteQuery : String
  siteCategory : String
  submitSiteStatusText : String
  submitSiteStatusClass : String
  customFeedsListHtml : String
  scrapedSitesListHtml : String
  checkDisabled : Bool
  submitFeedDisabled : Bool
  submitFeedLabel : String
  submitSiteDisabled : Bool
  submitSiteLabel : String
deriving DecidableEq

/-- `openModal` from the source: unhides the modal, clears both forms'
text fields and all four status messages, and calls both registry loaders
without awaiting them (each synchronously shows its loading placeholder and
issues its request).  The active tab, category selects, status classes and
button states are untouched.  Returns the state at the end of the handler
and the requests put in flight. -/
def openModal (m : ModalState) : ModalState × List String :=
  ({ m with modalHidden := false,
            feedUrl := "", feedName := "", feedUrlStatusText := "",
            submitStatusText := "",
            siteUrl := "", siteName := "", siteQuery := "",
            submitSiteStatusText := "",
            customFeedsListHtml := loadingHint,
            scrapedSitesListHtml := loadingHint },
   ["GET /api/feeds", "GET /api/sites"])

/-- How the feed-preview request can complete: transport failure, a
`res.json()` rejection, or a parsed body (`title`/`error` with `""` for
absent, `entry_count` a number). -/
inductive CheckOutcome where
  | transportFail (msg : String)
  | jsonFail (msg : String)
  | response (ok : Bool) (title : String) (entry_count : Nat) (error : String)
deriving DecidableEq

/-- The `checkFeedBtn` click handler from the source.  An empty (after
trimming) URL returns before touching anything.  Otherwise the button is
disabled, the URL status shows progress, the preview endpoint is queried,
and the result (or the thrown `data.error`) is rendered; the name field is
auto-filled only when the response carries a truthy title and the field is
currently empty.  The `finally` re-enables the button. -/
def checkFeedClick (c : CheckOutcome) (m : ModalState) : ModalState × List String :=
  let url := jsTrim m.feedUrl
  if url = "" then (m, [])
  else
    let m1 := { m with checkDisabled := true,
                       feedUrlStatusClass := "field-hint",
                       feedUrlStatusText := "Checking…" }
    let m2 :=
      match c with
      | .transportFail msg =>
          { m1 with feedUrlStatusClass := "field-hint err",
                    feedUrlStatusText := "✗ " ++ msg }
      | .jsonFail msg =>
          { m1 with feedUrlStatusClass := "field-hint err",
                    feedUrlStatusText := "✗ " ++ msg }
      | .response ok title entry_count error =>
          if ok then
            let m' := { m1 with feedUrlStatusClass := "field-hint ok",
                                feedUrlStatusText := "✓ Valid feed — " ++
                                  toString entry_count ++ " articles found" }
            if title ≠ "" ∧ m'.feedName = "" then { m' with feedName := title } else m'
          else
            { m1 with feedUrlStatusClass := "field-hint err",
                      feedUrlStatusText := "✗ " ++ error }
    ({ m2 with checkDisabled := false },
     ["GET /api/feeds/preview?url=" ++ encodeURIComponent url])

/-- How a submit POST can complete: transport failure, `res.json()`
rejection, or a parsed body (`name`/`error` with `""` for absent,
`fetched` a number). -/
inductive SubmitOutcome where
  | transportFail (msg : String)
  | jsonFail (msg : String)
  | response (ok : Bool) (name : String) (fetched : Nat) (error : String)
deriving DecidableEq

/-- The `submitFeedBtn` click handler from the source.  Empty trimmed URL:
inline validation message, no network call, button untouched.  Otherwise
the button goes busy; on a 2xx response the confirmation is shown, the
url/name fields and URL status are cleared, and `loadCustomFeeds` and
`loadArticles` (with the trimmed search value) are re-run; any failure
shows `✗ <reason>` and leaves the fields intact.  The `finally` restores
the button. -/
def submitFeedClick (env : Env) (o : SubmitOutcome) (lst : ListOutcome FeedSource)
    (arts : LoadOutcome) (searchValue : String) (m : ModalState) (v : FeedView) :
    ModalState × FeedView × List String :=
  let url := jsTrim m.feedUrl
  if url = "" then ({ m with submitStatusText := "Please enter a URL." }, v, [])
  else
    let m1 := { m with submitFeedDisabled := true, submitFeedLabel := "Adding…",
                       submitStatusText := "" }
    let (m2, v2, log) :=
      match o with
      | .transportFail msg =>
          ({ m1 with submitStatusClass := "field-hint err",
                     submitStatusText := "✗ " ++ msg }, v, ["POST /api/feeds"])
      | .jsonFail msg =>
          ({ m1 with submitStatusClass := "field-hint err",
                     submitStatusText := "✗ " ++ msg }, v, ["POST /api/feeds"])
      | .response ok nm fetched error =>
          if ok then
            ({ m1 with submitStatusClass := "field-hint ok",
                       submitStatusText := "✓ Added \"" ++ nm ++ "\" — " ++
                         toString fetched ++ " articles fetched.",
                       feedUrl := "", feedName := "", feedUrlStatusText := "",
                       customFeedsListHtml := loadCustomFeeds lst },
             loadArticles env (jsTrim searchValue) arts v,
             ["POST /api/feeds", "GET /api/feeds",
              "GET " ++ articlesRequestUrl (jsTrim searchValue)])
          else
            ({ m1 with submitStatusClass := "field-hint err",
                       submitStatusText := "✗ " ++ error }, v, ["POST /api/feeds"])
    ({ m2 with submitFeedDisabled := false, submitFeedLabel := "Add Feed" }, v2, log)

/-- The `submitSiteBtn` click handler from the source; same shape as the
feed submit, with the site fields, the Tavily progress message, and
`loadScrapedSites` in place of `loadCustomFeeds`. -/
def submitSiteClick (env : Env) (o : SubmitOutcome) (lst : ListOutcome ScrapedSite)
    (arts : LoadOutcome) (searchValue : String) (m : ModalState) (v : FeedView) :
    ModalState × FeedView × List String :=
  let url := jsTrim m.siteUrl
  if url = "" then ({ m with submitSiteStatusText := "Please enter a URL." }, v, [])
  else
    let m1 := { m with submitSiteDisabled := true, submitSiteLabel := "Scraping…",
                       submitSiteStatusClass := "field-hint",
                       submitSiteStatusText := "Contacting Tavily AI…" }
    let (m2, v2, log) :=
      match o with
      | .transportFail msg =>
          ({ m1 with submitSiteStatusClass := "field-hint err",
                     submitSiteStatusText := "✗ " ++ msg }, v, ["POST /api/sites"])
      | .jsonFail msg =>
          ({ m1 with submitSiteStatusClass := "field-hint err",
                     submitSiteStatusText := "✗ " ++ msg }, v, ["POST /api/sites"])
      | .response ok nm fetched error =>
          if ok then
            ({ m1 with submitSiteStatusClass := "field-hint ok",
                       submitSiteStatusText := "✓ Added \"" ++ nm ++ "\" — " ++
                         toString fetched ++ " articles scraped.",
                       siteUrl := "", siteName := "", siteQuery := "",
                       scrapedSitesListHtml := loadScrapedSites lst },
             loadArticles env (jsTrim searchValue) arts v,
             ["POST /api/sites", "GET /api/sites",
              "GET " ++ articlesRequestUrl (jsTrim searchValue)])
          else
            ({ m1 with submitSiteStatusClass := "field-hint err",
                       submitSiteStatusText := "✗ " ++ error }, v, ["POST /api/sites"])
    ({ m2 with submitSiteDisabled := false, submitSiteLabel := "Add Website" }, v2, log)

/-- How a bare DELETE `fetch` can complete: the handlers never check
`res.ok` nor read the body, so only transport failure is observable. -/
inductive DelOutcome where
  | transportFail (msg : String)
  | response (ok : Bool) (status : Nat)
deriving DecidableEq

/-- Result of one delete-button click: the clicked button's `disabled`
property, the registry list's `innerHTML`, the main feed view, an unhandled
promise rejection (the handler has no try/catch), and the requests
issued. -/
structure DeleteResult where
  btnDisabled : Bool
  registryHtml : String
  view : FeedView
  unhandledRejection : Option String
  log : List String
deriving DecidableEq

/-- The per-row delete handler bound in `loadCustomFeeds`.  It disables the
clicked button and awaits the DELETE; if that `fetch` rejects, the async
handler rejects unhandled and nothing further runs (the button is never
re-enabled).  If any response arrives — `res.ok` is never consulted, so an
error status for an already-removed id behaves identically — the registry
list and the article feed are reloaded. -/
def deleteFeedClick (env : Env) (id : String) (del : DelOutcome)
    (lst : ListOutcome FeedSource) (searchValue : String) (arts : LoadOutcome)
    (registryHtml : String) (v : FeedView) : DeleteResult :=
  match del with
  | .transportFail msg =>
      { btnDisabled := true, registryHtml := registryHtml, view := v,
        unhandledRejection := some msg,
        log := ["DELETE /api/feeds/" ++ id] }
  | .response _ _ =>
      { btnDisabled := true,
        registryHtml := loadCustomFeeds lst,
        view := loadArticles env (jsTrim searchValue) arts v,
        unhandledRejection := none,
        log := ["DELETE /api/feeds/" ++ id, "GET /api/feeds",
                "GET " ++ articlesRequestUrl (jsTrim searchValue)] }

/-- The per-row delete handler bound in `loadScrapedSites`; identical shape
against the sites endpoints. -/
def deleteSiteClick (env : Env) (id : String) (del : DelOutcome)
    (lst : ListOutcome ScrapedSite) (searchValue : String) (arts : LoadOutcome)
    (registryHtml : String) (v : FeedView) : DeleteResult :=
  match del with
  | .transportFail msg =>
      { btnDisabled := true, registryHtml := registryHtml, view := v,
        unhandledRejection := some msg,
        log := ["DELETE /api/sites/" ++ id] }
  | .response _ _ =>
      { btnDisabled := true,
        registryHtml := loadScrapedSites lst,
        view := loadArticles env (jsTrim searchValue) arts v,
        unhandledRejection := none,
        log := ["DELETE /api/sites/" ++ id, "GET /api/sites",
                "GET " ++ articlesRequestUrl (jsTrim searchValue)] }

/-- State of the search debouncer: the search box's current value, the
pending timer's absolute fire time (if armed), and the keywords of the
article loads issued so far. -/
structure DebounceState where
  boxValue : String
  pending : Option Nat
  loads : List String
deriving DecidableEq

/-- Process one input event `(t, v)` at absolute time `t` setting the box
to `v`.  If the armed timer's deadline has passed by `t`, it fired first,
issuing `loadArticles(searchInput.value.trim())` with the box value current
at that moment; the handler then does `clearTimeout` (a no-op if already
fired) and arms a fresh 350 ms timer. -/
def debStep (s : DebounceState) (e : Nat × String) : DebounceState :=
  let s' :=
    match s.pending with
    | some d =>
        if d ≤ e.1 then
          { s with loads := s.loads ++ [jsTrim s.boxValue], pending := none }
        else s
    | none => s
  { s' with boxValue := e.2, pending := some (e.1 + 350) }

/-- Run a time-ordered list of input events. -/
def debRun (s : DebounceState) (es : List (Nat × String)) : DebounceState :=
  es.foldl debStep s

/-- After the last input event, the surviving timer eventually fires. -/
def debFlush (s : DebounceState) : DebounceState :=
  match s.pending with
  | some _ => { s with pending := none, loads := s.loads ++ [jsTrim s.boxValue] }
  | none => s

/-- The burst condition of the debounce claim: consecutive events in
time order, each strictly within the 350 ms quiet period of the previous
one. -/
def tight : List (Nat × String) → Bool
  | (t1, _) :: (t2, v2) :: rest =>
      (decide (t1 ≤ t2) && decide (t2 < t1 + 350)) && tight ((t2, v2) :: rest)
  | _ => true

/-- A concrete environment used by the closed theorems: every date is
treated as unparseable and the locale time is a fixed clock string. -/
def env0 : Env :=
  { dateValid := fun _ => false, localeDate := fun _ => "", localeTime := fun _ => "10:00:00" }

/-- A concrete resting feed view. -/
def view0 : FeedView :=
  { feedHtml := "<div class=\"empty\">No articles found.</div>", countText := "0 articles" }

/-- A concrete resting page state. -/
def page0 : PageState :=
  { view := view0, statusText := "Last updated: 09:00:00", refreshDisabled := false,
    refreshLabel := "&#8635; Refresh" }

/-- A concrete resting modal state whose feed-URL field holds only
whitespace. -/
def modal0 : ModalState :=
  { modalHidden := true, activeTab := "feeds", feedUrl := "   ", feedName := "",
    feedCategory := "AI", feedUrlStatusText := "", feedUrlStatusClass := "field-hint",
    submitStatusText := "", submitStatusClass := "field-hint",
    siteUrl := "", siteName := "", siteQuery := "", siteCategory := "AI",
    submitSiteStatusText := "", submitSiteStatusClass := "field-hint",
    customFeedsListHtml := "", scrapedSitesListHtml := "",
    checkDisabled := false, submitFeedDisabled := false, submitFeedLabel := "Add Feed",
    submitSiteDisabled := false, submitSiteLabel := "Add Website" }

/-- Concrete article returned by the slower, staler load. -/
def artA : Article :=
  { title := "Alpha", url := "https://a.example/x", source := "SrcA",
    category := "GitHub", published := "", summary := "" }

/-- Concrete article returned by the newer load. -/
def artB : Article :=
  { title := "Beta", url := "https://b.example/y", source := "SrcB",
    category := "Gaming", published := "", summary := "" }

/-- The hazard trace of the spec: load A issued, load B issued while A is
in flight, B's response arrives first, A's response arrives last. -/
def raceTrace : List LoadEvent :=
  [LoadEvent.issue ("A"), LoadEvent.issue ("B"),
   LoadEvent.arrive 1 (LoadOutcome.success [artB]),
   LoadEvent.arrive 0 (LoadOutcome.success [artA])]

/-- During a burst in which every event falls inside the previous event's
quiet period, the armed timer never fires: the run only keeps re-arming,
carrying the loads list unchanged and ending on the last event's value and
deadline. -/
theorem debRun_tight (es : List (Nat × String)) : ∀ (t : Nat) (b : String) (L : List String),
    tight ((t, b) :: es) = true →
    debRun ⟨b, some (t + 350), L⟩ es =
      ⟨(es.getLastD (t, b)).2, some ((es.getLastD (t, b)).1 + 350), L⟩ := by
  induction es with
  | nil =>
      intro t b L _
      simp [debRun, List.getLastD]
  | cons e rest ih =>
      intro t b L h
      obtain ⟨t2, v2⟩ := e
      simp only [tight, Bool.and_eq_true, decide_eq_true_eq] at h
      obtain ⟨⟨h1, h2⟩, h3⟩ := h
      have hne : ¬ (t + 350 ≤ t2) := by omega
      have hstep : debStep ⟨b, some (t + 350), L⟩ (t2, v2) = ⟨v2, some (t2 + 350), L⟩ := by
        simp [debStep, hne]
      show debRun (debStep ⟨b, some (t + 350), L⟩ (t2, v2)) rest = _
      rw [hstep, ih t2 v2 L (by simpa [tight] using h3), List.getLastD_cons]

/-- Trimming a whitespace-only string yields the empty keyword. -/
theorem jsTrim_all_space (s : String) (h : ∀ c ∈ s.toList, isJsSpace c = true) :
    jsTrim s = "" := by
  have h1 : jsTrimStart s.data = [] := by
    simp [jsTrimStart, List.dropWhile_eq_nil_iff]
    exact fun c hc => h c hc
  simp [jsTrim, String.toList, h1, jsTrimEnd]

/-- C1: on the spec's own hazard trace — load A issued, load B issued
while A is in flight, B's response arriving first and A's arriving last —
the code applies every arriving response unconditionally (no sequence
number exists anywhere in `loadArticles`), so the final rendered list is
A's stale result, not B's: the claimed stale-response protection is absent
from the code. -/
theorem C1_stale_response_wins :
    (runLoads env0 ⟨[], ⟨"", ""⟩⟩ raceTrace).view.feedHtml = renderCards env0 [artA] ∧
    (runLoads env0 ⟨[], ⟨"", ""⟩⟩ raceTrace).view.feedHtml ≠ renderCards env0 [artB] := by
  decide

/-- C2 counterexample: a non-success HTTP status on `POST /api/refresh` is
a failure in the claim's taxonomy, yet the handler never consults `res.ok`
on that request: with a 500 response the subsequent article reload and
status refresh still run (the request log has all three steps) and the
status line ends up with the status poller's text, not the refresh failure
reason. -/
theorem C2_counterexample :
    (refreshClick env0 ("") (PostOutcome.response false 500) (LoadOutcome.success [])
        (StatusOutcome.transportFail ("boom")) page0).2 =
      ["POST /api/refresh", "GET /api/articles", "GET /api/status"] ∧
    (refreshClick env0 ("") (PostOutcome.response false 500) (LoadOutcome.success [])
        (StatusOutcome.transportFail ("boom")) page0).1.statusText = "Status unavailable." := by
  decide

/-- C2 amended: manual refresh runs POST `/api/refresh`, then the article
reload with the trimmed current keyword, then the status refresh, in that
order; the subsequent steps are skipped — with the status line showing the
failure reason — exactly when the POST fails at the transport level.  A
non-success HTTP status on the POST is never detected and the subsequent
steps run. -/
theorem C2_refresh_sequence_amended (env : Env) (searchValue msg : String) (ok : Bool)
    (status : Nat) (load : LoadOutcome) (st : StatusOutcome) (s : PageState) :
    (refreshClick env searchValue (PostOutcome.transportFail msg) load st s).2 =
      ["POST /api/refresh"] ∧
    (refreshClick env searchValue (PostOutcome.transportFail msg) load st s).1.statusText =
      "Refresh failed: " ++ msg ∧
    (refreshClick env searchValue (PostOutcome.transportFail msg) load st s).1.view = s.view ∧
    (refreshClick env searchValue (PostOutcome.response ok status) load st s).2 =
      ["POST /api/refresh", "GET " ++ articlesRequestUrl (jsTrim searchValue),
       "GET /api/status"] ∧
    (refreshClick env searchValue (PostOutcome.response ok status) load st s).1.view =
      loadArticles env (jsTrim searchValue) load s.view ∧
    (refreshClick env searchValue (PostOutcome.response ok status) load st s).1.statusText =
      updateStatus env st :=
  ⟨rfl, rfl, rfl, rfl, rfl, rfl⟩

/-- C3 counterexample: a 301-character summary whose 300th character is a
space is not rendered as exactly its first 300 characters plus an ellipsis
— `truncate` first strips the trailing whitespace of the slice, yielding
299 characters before the ellipsis. -/
theorem C3_counterexample :
    (String.mk (List.replicate 299 'a' ++ [' ', 'b'])).length = 301 ∧
    truncate (String.mk (List.replicate 299 'a' ++ [' ', 'b'])) 300 ≠
      String.mk ((String.mk (List.replicate 299 'a' ++ [' ', 'b'])).toList.take 300) ++ "…" ∧
    truncate (String.mk (List.replicate 299 'a' ++ [' ', 'b'])) 300 =
      String.mk (List.replicate 299 'a') ++ "…" := by
  decide

/-- C3 amended: a summary of at most 300 characters is rendered
unmodified; a 301-character summary is rendered as its first 300
characters with trailing whitespace removed, followed by an ellipsis — in
particular exactly its first 300 characters plus the ellipsis whenever
that slice carries no trailing whitespace. -/
theorem C3_truncate_amended (s : String) :
    (s.length ≤ 300 → truncate s 300 = s) ∧
    (s.length = 301 → truncate s 300 = String.mk (jsTrimEnd (s.toList.take 300)) ++ "…") ∧
    (s.length = 301 → jsTrimEnd (s.toList.take 300) = s.toList.take 300 →
      truncate s 300 = String.mk (s.toList.take 300) ++ "…") := by
  refine ⟨?_, ?_, ?_⟩
  · intro h
    by_cases hs : s = ""
    · subst hs; rfl
    · have hle : ¬ (300 < s.length) := by omega
      simp [truncate, hs, hle]
  · intro h
    have hs : s ≠ "" := by intro he; rw [he] at h; exact absurd h (by decide)
    have hgt : 300 < s.length := by omega
    simp [truncate, hs, hgt]
  · intro h ht
    have hs : s ≠ "" := by intro he; rw [he] at h; exact absurd h (by decide)
    have hgt : 300 < s.length := by omega
    have ht2 : jsTrimEnd (List.take 300 s.data) = List.take 300 s.data := ht
    simp [truncate, hs, hgt, ht2]

/-- The 301-character all-letter summary used as the amended claim's
witness input. -/
def allA : String := String.mk (List.replicate 301 'a')

/-- C3 amended, witnessed at a short summary and at a 301-character
summary with no trailing whitespace in its 300-character prefix. -/
theorem C3_truncate_amended_witness :
    truncate ("short") 300 = "short" ∧
    allA.length = 301 ∧
    jsTrimEnd (allA.toList.take 300) = allA.toList.take 300 ∧
    truncate allA 300 = String.mk (allA.toList.take 300) ++ "…" :=
  ⟨(C3_truncate_amended ("short")).1 (by decide), by decide, by decide,
   (C3_truncate_amended allA).2.2 (by decide) (by decide)⟩

/-- C4 counterexample: when the DELETE `fetch` rejects at the transport
level, the handler — which has no try/catch — rejects unhandled: neither
the registry list nor the article load is re-run, contradicting the
claimed unconditional reload and the claimed absence of unhandled
failures. -/
theorem C4_counterexample :
    (deleteFeedClick env0 ("7") (DelOutcome.transportFail ("Failed to fetch"))
        (ListOutcome.items []) ("") (LoadOutcome.success []) ("rows") view0).log =
      ["DELETE /api/feeds/7"] ∧
    (deleteFeedClick env0 ("7") (DelOutcome.transportFail ("Failed to fetch"))
        (ListOutcome.items []) ("") (LoadOutcome.success []) ("rows") view0).unhandledRejection =
      some ("Failed to fetch") := by
  decide

/-- C4 amended: for either registry, whenever the DELETE request receives
an HTTP response — of any status, so in particular an error status for an
already-removed id, which the handler never even inspects — the registry
list and the article load with the current trimmed keyword are re-run
afterwards and no unhandled failure occurs; only a transport-level
failure of the DELETE aborts the handler with an unhandled rejection and
no reload. -/
theorem C4_delete_reloads_amended (env : Env) (id : String) (ok : Bool) (status : Nat)
    (lf : ListOutcome FeedSource) (ls : ListOutcome ScrapedSite) (sv : String)
    (arts : LoadOutcome) (rh : String) (v : FeedView) :
    (deleteFeedClick env id (DelOutcome.response ok status) lf sv arts rh v).log =
      ["DELETE /api/feeds/" ++ id, "GET /api/feeds",
       "GET " ++ articlesRequestUrl (jsTrim sv)] ∧
    (deleteFeedClick env id (DelOutcome.response ok status) lf sv arts rh v).unhandledRejection =
      none ∧
    (deleteFeedClick env id (DelOutcome.response ok status) lf sv arts rh v).registryHtml =
      loadCustomFeeds lf ∧
    (deleteFeedClick env id (DelOutcome.response ok status) lf sv arts rh v).view =
      loadArticles env (jsTrim sv) arts v ∧
    (deleteSiteClick env id (DelOutcome.response ok status) ls sv arts rh v).log =
      ["DELETE /api/sites/" ++ id, "GET /api/sites",
       "GET " ++ articlesRequestUrl (jsTrim sv)] ∧
    (deleteSiteClick env id (DelOutcome.response ok status) ls sv arts rh v).unhandledRejection =
      none ∧
    (deleteSiteClick env id (DelOutcome.response ok status) ls sv arts rh v).registryHtml =
      loadScrapedSites ls :=
  ⟨rfl, rfl, rfl, rfl, rfl, rfl, rfl⟩

/-- C5 counterexample: the delete trigger is a busy-labeled control, yet on
a transport-level DELETE failure its handler exits (by unhandled rejection)
with the button still disabled and still present — the registry list was
not re-rendered — so the UI is stuck disabled. -/
theorem C5_counterexample :
    (deleteFeedClick env0 ("9") (DelOutcome.transportFail ("network down"))
        (ListOutcome.items []) ("") (LoadOutcome.success []) ("rows") view0).btnDisabled =
      true ∧
    (deleteFeedClick env0 ("9") (DelOutcome.transportFail ("network down"))
        (ListOutcome.items []) ("") (LoadOutcome.success []) ("rows") view0).registryHtml =
      "rows" := by
  decide

/-- C5 amended: the refresh, check, submit-feed and submit-site triggers
are restored to their resting enabled state and resting label on every
exit path of their own operation (their handlers end in a finally, and the
early-validation returns leave an initially-resting control untouched).
The delete trigger is the exception: its handler never re-enables it — on
success the re-rendered list replaces the element, and on transport
failure it remains disabled. -/
theorem C5_busy_restored_amended (env : Env) (sv : String) (post : PostOutcome)
    (load : LoadOutcome) (st : StatusOutcome) (p : PageState) (c : CheckOutcome)
    (fo so : SubmitOutcome) (lf : ListOutcome FeedSource) (ls : ListOutcome ScrapedSite)
    (af bs : LoadOutcome) (m : ModalState) (v : FeedView)
    (hc : m.checkDisabled = false) (hf : m.submitFeedDisabled = false)
    (hfl : m.submitFeedLabel = "Add Feed") (hs : m.submitSiteDisabled = false)
    (hsl : m.submitSiteLabel = "Add Website") :
    ((refreshClick env sv post load st p).1.refreshDisabled = false ∧
     (refreshClick env sv post load st p).1.refreshLabel = "&#8635; Refresh") ∧
    (checkFeedClick c m).1.checkDisabled = false ∧
    ((submitFeedClick env fo lf af sv m v).1.submitFeedDisabled = false ∧
     (submitFeedClick env fo lf af sv m v).1.submitFeedLabel = "Add Feed") ∧
    ((submitSiteClick env so ls bs sv m v).1.submitSiteDisabled = false ∧
     (submitSiteClick env so ls bs sv m v).1.submitSiteLabel = "Add Website") := by
  refine ⟨?_, ?_, ?_, ?_⟩
  · cases post <;> exact ⟨rfl, rfl⟩
  · unfold checkFeedClick
    by_cases hurl : jsTrim m.feedUrl = ""
    · simp [hurl, hc]
    · simp [hurl]
  · unfold submitFeedClick
    by_cases hurl : jsTrim m.feedUrl = ""
    · simp [hurl, hf, hfl]
    · cases fo with
      | transportFail msg => simp [hurl]
      | jsonFail msg => simp [hurl]
      | response ok nm fetched error => cases ok <;> simp [hurl]
  · unfold submitSiteClick
    by_cases hurl : jsTrim m.siteUrl = ""
    · simp [hurl, hs, hsl]
    · cases so with
      | transportFail msg => simp [hurl]
      | jsonFail msg => simp [hurl]
      | response ok nm fetched error => cases ok <;> simp [hurl]

/-- C5 amended, witnessed at concrete outcomes and an initially-resting
page and modal state. -/
theorem C5_busy_restored_amended_witness :
    (modal0.checkDisabled = false ∧ modal0.submitFeedDisabled = false ∧
     modal0.submitFeedLabel = "Add Feed" ∧ modal0.submitSiteDisabled = false ∧
     modal0.submitSiteLabel = "Add Website") ∧
    ((refreshClick env0 ("") (PostOutcome.transportFail ("boom")) (LoadOutcome.success [])
        (StatusOutcome.fetched ("")) page0).1.refreshDisabled = false ∧
     (refreshClick env0 ("") (PostOutcome.transportFail ("boom")) (LoadOutcome.success [])
        (StatusOutcome.fetched ("")) page0).1.refreshLabel = "&#8635; Refresh") ∧
    (checkFeedClick (CheckOutcome.response true ("T") 3 ("")) modal0).1.checkDisabled = false ∧
    ((submitFeedClick env0 (SubmitOutcome.transportFail ("boom")) (ListOutcome.items [])
        (LoadOutcome.success []) ("") modal0 view0).1.submitFeedDisabled = false ∧
     (submitFeedClick env0 (SubmitOutcome.transportFail ("boom")) (ListOutcome.items [])
        (LoadOutcome.success []) ("") modal0 view0).1.submitFeedLabel = "Add Feed") ∧
    ((submitSiteClick env0 (SubmitOutcome.response false ("") 0 ("bad url"))
        (ListOutcome.items []) (LoadOutcome.success []) ("") modal0 view0).1.submitSiteDisabled =
        false ∧
     (submitSiteClick env0 (SubmitOutcome.response false ("") 0 ("bad url"))
        (ListOutcome.items []) (LoadOutcome.success []) ("") modal0 view0).1.submitSiteLabel =
        "Add Website") :=
  ⟨by decide,
   C5_busy_restored_amended env0 ("") (PostOutcome.transportFail ("boom"))
     (LoadOutcome.success []) (StatusOutcome.fetched ("")) page0
     (CheckOutcome.response true ("T") 3 ("")) (SubmitOutcome.transportFail ("boom"))
     (SubmitOutcome.response false ("") 0 ("bad url")) (ListOutcome.items [])
     (ListOutcome.items []) (LoadOutcome.success []) (LoadOutcome.success []) modal0 view0
     (by decide) (by decide) (by decide) (by decide) (by decide)⟩

/-- C6: on transport failure and on non-success HTTP status alike,
`loadArticles` replaces the list with an inline error message that carries
the failure reason, and leaves the article-count label exactly in its
previous state. -/
theorem C6_load_failure_frame (env : Env) (keyword msg : String) (status : Nat)
    (v : FeedView) :
    (loadArticles env keyword (LoadOutcome.transportFail msg) v).countText = v.countText ∧
    (loadArticles env keyword (LoadOutcome.transportFail msg) v).feedHtml =
      "<div class=\"error\">Failed to load articles: " ++ msg ++ "</div>" ∧
    (loadArticles env keyword (LoadOutcome.httpError status) v).countText = v.countText ∧
    (loadArticles env keyword (LoadOutcome.httpError status) v).feedHtml =
      "<div class=\"error\">Failed to load articles: HTTP " ++ toString status ++ "</div>" :=
  ⟨rfl, rfl, rfl, rfl⟩

/-- C7: the category mapping is total — each of the four named categories
gets its designated badge class, any other string (the empty string
included) gets the default "badge-ai", and every possible input lands in
one of the four classes. -/
theorem C7_badgeClass_total (c : String)
    (h : c ≠ "GitHub" ∧ c ≠ "Research" ∧ c ≠ "Game Dev AI" ∧ c ≠ "Gaming") :
    badgeClass ("GitHub") = "badge-github" ∧
    badgeClass ("Research") = "badge-research" ∧
    badgeClass ("Game Dev AI") = "badge-game" ∧
    badgeClass ("Gaming") = "badge-game" ∧
    badgeClass c = "badge-ai" ∧
    (∀ x : String, badgeClass x = "badge-github" ∨ badgeClass x = "badge-research" ∨
      badgeClass x = "badge-game" ∨ badgeClass x = "badge-ai") := by
  obtain ⟨h1, h2, h3, h4⟩ := h
  refine ⟨by decide, by decide, by decide, by decide, ?_, ?_⟩
  · simp [badgeClass, h1, h2, h3, h4]
  · intro x
    unfold badgeClass
    split_ifs <;> simp

/-- C7, witnessed at the unknown category "AI Models" (and implicitly, via
the theorem's other conjuncts, at the four named categories). -/
theorem C7_badgeClass_total_witness :
    (("AI Models" : String) ≠ "GitHub" ∧ ("AI Models" : String) ≠ "Research" ∧
     ("AI Models" : String) ≠ "Game Dev AI" ∧ ("AI Models" : String) ≠ "Gaming") ∧
    badgeClass ("AI Models") = "badge-ai" :=
  ⟨by decide, (C7_badgeClass_total ("AI Models") (by decide)).2.2.2.2.1⟩

/-- C8: for any burst of input events each arriving strictly within the
350 ms quiet period of the previous one, exactly one article load is
issued once the burst quiesces, and it uses the trimmed value left by the
last event; if that last value is whitespace-only the load's keyword is
empty, which `loadArticles` maps to the unfiltered endpoint. -/
theorem C8_search_debounce (t0 : Nat) (w0 : String) (rest : List (Nat × String))
    (b : String) (h : tight ((t0, w0) :: rest) = true) :
    (debFlush (debRun ⟨b, none, []⟩ ((t0, w0) :: rest))).loads =
      [jsTrim (rest.getLastD (t0, w0)).2] ∧
    ((∀ c ∈ (rest.getLastD (t0, w0)).2.toList, isJsSpace c = true) →
      (debFlush (debRun ⟨b, none, []⟩ ((t0, w0) :: rest))).loads = [""] ∧
      articlesRequestUrl ("") = "/api/articles") := by
  have hstep : debStep ⟨b, none, []⟩ (t0, w0) = ⟨w0, some (t0 + 350), []⟩ := by
    simp [debStep]
  have hrun : debRun ⟨b, none, []⟩ ((t0, w0) :: rest) =
      ⟨(rest.getLastD (t0, w0)).2, some ((rest.getLastD (t0, w0)).1 + 350), []⟩ := by
    show debRun (debStep ⟨b, none, []⟩ (t0, w0)) rest = _
    rw [hstep]
    exact debRun_tight rest t0 w0 [] h
  constructor
  · rw [hrun]
    simp [debFlush]
  · intro hws
    refine ⟨?_, rfl⟩
    rw [hrun]
    show [jsTrim (rest.getLastD (t0, w0)).2] = [""]
    rw [jsTrim_all_space _ hws]

/-- C8, witnessed on a three-keystroke burst 100 ms apart whose final
value carries surrounding whitespace. -/
theorem C8_search_debounce_witness :
    tight [(0, "ga"), (100, "gam"), (200, " game ai ")] = true ∧
    (debFlush (debRun ⟨"", none, []⟩
        [(0, "ga"), (100, "gam"), (200, " game ai ")])).loads =
      [jsTrim (([(100, "gam"), (200, " game ai ")] : List (Nat × String)).getLastD
        (0, "ga")).2] ∧
    jsTrim (" game ai ") = "game ai" :=
  ⟨by decide,
   (C8_search_debounce 0 ("ga") [(100, "gam"), (200, " game ai ")] ("") (by decide)).1,
   by decide⟩

/-- C9: whatever state the modal was left in, opening it clears both
forms' text fields and all status messages, unhides it, leaves the active
tab as it was, and puts both registry loads in flight (their containers
showing the loading placeholder) regardless of that tab. -/
theorem C9_openModal_resets (m : ModalState) :
    (openModal m).1.feedUrl = "" ∧
    (openModal m).1.feedName = "" ∧
    (openModal m).1.feedUrlStatusText = "" ∧
    (openModal m).1.submitStatusText = "" ∧
    (openModal m).1.siteUrl = "" ∧
    (openModal m).1.siteName = "" ∧
    (openModal m).1.siteQuery = "" ∧
    (openModal m).1.submitSiteStatusText = "" ∧
    (openModal m).1.modalHidden = false ∧
    (openModal m).1.activeTab = m.activeTab ∧
    (openModal m).1.customFeedsListHtml = loadingHint ∧
    (openModal m).1.scrapedSitesListHtml = loadingHint ∧
    (openModal m).2 = ["GET /api/feeds", "GET /api/sites"] :=
  ⟨rfl, rfl, rfl, rfl, rfl, rfl, rfl, rfl, rfl, rfl, rfl, rfl, rfl⟩

/-- C10: clicking Check with an empty or whitespace-only feed URL is a
complete no-op — the handler returns before any network request, leaving
every piece of modal state (URL status text and class, name field, button
state) exactly as it was. -/
theorem C10_check_empty_noop (c : CheckOutcome) (m : ModalState)
    (h : jsTrim m.feedUrl = "") :
    checkFeedClick c m = (m, []) := by
  unfold checkFeedClick
  simp [h]

/-- C10, witnessed at a whitespace-only URL field. -/
theorem C10_check_empty_noop_witness :
    jsTrim modal0.feedUrl = "" ∧
    checkFeedClick (CheckOutcome.transportFail ("boom")) modal0 = (modal0, []) :=
  ⟨by decide, C10_check_empty_noop (CheckOutcome.transportFail ("boom")) modal0 (by decide)⟩
